import Mathlib

/-!
Shallow embedding of the authentication/session subsystem of the
user-product-api repository (src/services/UserService, src/middleware/authProtect,
src/utils/token), with theorems checking the natural-language specification.

Conventions of the embedding:
* The credential store is a list of user records; `findOne` is `List.find?`
  (first match), `save` replaces the record with the same id.
* Time is an abstract `Nat` clock passed explicitly (`now`); token TTLs are the
  source's values in seconds.
* `crypto.randomBytes` outputs are passed in as explicit arguments (the raw
  ephemeral token), making the nondeterminism explicit.
* bcrypt and sha256 are external collaborators; they are modelled as injective
  tagging functions, which captures the contract the code relies on
  (compare succeeds exactly on the preimage).
* A JWT is modelled as an inductive carrying its signing secret, subject id and
  expiry; `jwtVerify` checks secret and expiry, failing closed, mirroring
  `jsonwebtoken.verify`.
* Each service operation returns the updated store paired with an
  `Except ApiError` result, mirroring `throw new ApiError(msg, code)`.
-/

/-- `ApiError` from src/middleware/errorHandler.ts: a message and HTTP status code. -/
structure ApiError where
  message : String
  statusCode : Nat
  deriving DecidableEq, Repr

/-- Model of `crypto.createHash("sha256").update(s).digest("hex")`:
a deterministic one-way digest, modelled as injective tagging. -/
def sha256Hex (s : String) : String := "sha256." ++ s

/-- Model of `bcrypt.hash(pw, 10)`: a one-way password digest. -/
def bcryptHash (pw : String) : String := "bcrypt." ++ pw

/-- Model of `bcrypt.compare(pw, stored)`: true exactly when `stored` is the
digest of `pw`. -/
def bcryptCompare (pw stored : String) : Bool := stored == bcryptHash pw

/-- Process-wide `ACCESS_TOKEN_SECRET` read from the environment at startup
(src/utils/token.ts). -/
def accessTokenSecret : String := "aSec"

/-- Process-wide `REFRESH_TOKEN_SECRET` read from the environment at startup
(src/utils/token.ts). -/
def refreshTokenSecret : String := "rSec"

/-- A JSON Web Token as produced by `jwt.sign({ userId }, secret, { expiresIn })`:
either a well-formed signed claim set, or an arbitrary malformed string. -/
inductive Jwt where
  | signed (secret : String) (userId : Nat) (iat : Nat) (exp : Nat)
  | malformed (raw : String)
  deriving DecidableEq, Repr

/-- Model of `jwt.verify(token, secret)` at clock `now`: returns the `userId`
claim when the signature matches and the token is unexpired, and fails closed
(`none`) on any secret mismatch, malformed token, or expiry. -/
def jwtVerify (secret : String) (now : Nat) : Jwt → Option Nat
  | .signed s uid _iat exp => if s = secret ∧ now < exp then some uid else none
  | .malformed _ => none

/-- `signAccessToken(userId)` (src/utils/token.ts): 15-minute token signed with
the access secret. -/
def signAccessToken (userId : Nat) (now : Nat) : Jwt :=
  .signed accessTokenSecret userId now (now + 15 * 60)

/-- `signRefreshToken(userId)` (src/utils/token.ts): 1-day token signed with
the refresh secret. -/
def signRefreshToken (userId : Nat) (now : Nat) : Jwt :=
  .signed refreshTokenSecret userId now (now + 24 * 60 * 60)

/-- A user document (src/types/IUser.ts / src/models/UserModel.ts).
`password` holds the bcrypt digest; expiry fields are clock values. -/
structure UserRec where
  id : Nat
  username : String
  email : String
  password : String
  role : String
  isVerified : Bool
  isActive : Bool
  refreshToken : Option Jwt
  emailVerificationToken : Option String
  emailVerificationExpires : Option Nat
  passwordResetToken : Option String
  passwordResetExpires : Option Nat
  deriving DecidableEq, Repr

/-- The credential store: the `users` collection. -/
abbrev Db := List UserRec

/-- `User.findById(id)`. -/
def findById (id : Nat) (db : Db) : Option UserRec :=
  db.find? (fun u => u.id == id)

/-- `user.save()`: whole-record update of the document with the same id. -/
def saveUser (u : UserRec) (db : Db) : Db :=
  db.map (fun v => if v.id == u.id then u else v)

/-- The `$or: [{ email: identifier }, { username: identifier }]` filter of
`UserService.login`. -/
def loginIdentMatch (identifier : String) (u : UserRec) : Bool :=
  u.email == identifier || u.username == identifier

/-- The `{ email }` filter of `resendVerificationEmail` / `forgotPassword`. -/
def emailMatch (email : String) (u : UserRec) : Bool :=
  u.email == email

/-- The `{ emailVerificationToken: hashedToken, emailVerificationExpires: { $gt: new Date() } }`
filter of `UserService.verifyEmail`. -/
def emailVerifyMatch (hashedToken : String) (now : Nat) (u : UserRec) : Bool :=
  decide (u.emailVerificationToken = some hashedToken) &&
    (match u.emailVerificationExpires with
     | some e => decide (now < e)
     | none => false)

/-- The `{ passwordResetToken: hashedToken, passwordResetExpires: { $gt: new Date() } }`
filter of `UserService.resetPassword`. -/
def passwordResetMatch (hashedToken : String) (now : Nat) (u : UserRec) : Bool :=
  decide (u.passwordResetToken = some hashedToken) &&
    (match u.passwordResetExpires with
     | some e => decide (now < e)
     | none => false)

/-- The `{ refreshToken: cookieRefreshToken }` filter of `UserService.logout`. -/
def refreshTokenMatch (tok : Jwt) (u : UserRec) : Bool :=
  decide (u.refreshToken = some tok)

/-- The safe projection returned by `UserService.login`. -/
structure SafeUser where
  id : Nat
  username : String
  role : String
  deriving DecidableEq, Repr

/-- The success payload of `UserService.login`. -/
structure LoginOk where
  user : SafeUser
  accessTkn : Jwt
  refreshTkn : Jwt
  deriving DecidableEq, Repr

/-- `UserService.login(identifier, password)` (src/services/UserService.ts).
Returns the (possibly updated) store and the thrown error or success payload. -/
def login (db : Db) (now : Nat) (identifier password : String) :
    Db × Except ApiError LoginOk :=
  match db.find? (loginIdentMatch identifier) with
  | none => (db, .error ⟨"Invalid credentials", 401⟩)
  | some user =>
    if bcryptCompare password user.password = false then
      (db, .error ⟨"Invalid credentials", 401⟩)
    else if user.isVerified = false then
      (db, .error ⟨"Please verify your email", 403⟩)
    else if user.isActive = false then
      (db, .error ⟨"Account is disabled", 403⟩)
    else
      let refreshTkn := signRefreshToken user.id now
      (saveUser { user with refreshToken := some refreshTkn } db,
        .ok ⟨⟨user.id, user.username, user.role⟩, signAccessToken user.id now, refreshTkn⟩)

/-- `UserService.refresh(cookieRefreshToken)` (src/services/UserService.ts).
The cookie token is `none` when absent. On success only a new access token is
issued; nothing is saved. -/
def refresh (db : Db) (now : Nat) (cookieRefreshToken : Option Jwt) :
    Db × Except ApiError Jwt :=
  match cookieRefreshToken with
  | none => (db, .error ⟨"Unauthorized", 401⟩)
  | some tok =>
    match jwtVerify refreshTokenSecret now tok with
    | none => (db, .error ⟨"Forbidden: Expired or Invalid Refresh Token", 403⟩)
    | some uid =>
      match findById uid db with
      | none => (db, .error ⟨"Unauthorized", 401⟩)
      | some user =>
        if user.isActive = false then (db, .error ⟨"Unauthorized", 401⟩)
        else if user.refreshToken ≠ some tok then
          (db, .error ⟨"Forbidden: Invalid Token", 403⟩)
        else (db, .ok (signAccessToken user.id now))

/-- `UserService.logout(cookieRefreshToken)` (src/services/UserService.ts):
silent no-op unless a user stores the presented token; then clears it. -/
def logout (db : Db) (cookieRefreshToken : Option Jwt) :
    Db × Except ApiError Unit :=
  match cookieRefreshToken with
  | none => (db, .ok ())
  | some tok =>
    match db.find? (refreshTokenMatch tok) with
    | none => (db, .ok ())
    | some user => (saveUser { user with refreshToken := none } db, .ok ())

/-- The mutation `verifyEmail` applies to the matched user: set `isVerified`,
clear the verification token pair. -/
def markVerified (u : UserRec) : UserRec :=
  { u with
      isVerified := true
      emailVerificationToken := none
      emailVerificationExpires := none }

/-- `UserService.verifyEmail(token)` (src/services/UserService.ts): looks up by
token hash and unexpired expiry; on success sets `isVerified` and clears the
token pair. -/
def verifyEmail (db : Db) (now : Nat) (token : String) :
    Db × Except ApiError String :=
  match db.find? (emailVerifyMatch (sha256Hex token) now) with
  | none => (db, .error ⟨"Invalid or expired token", 400⟩)
  | some user =>
    (saveUser (markVerified user) db, .ok "Email verified successfully")

/-- `UserService.resendVerificationEmail(email)` (src/services/UserService.ts):
silent no-op when the user is absent or already verified; otherwise overwrites
the verification token pair (24h TTL). `rawToken` models `crypto.randomBytes(32)`. -/
def resendVerificationEmail (db : Db) (now : Nat) (email rawToken : String) :
    Db × Except ApiError Unit :=
  match db.find? (emailMatch email) with
  | none => (db, .ok ())
  | some user =>
    if user.isVerified then (db, .ok ())
    else
      (saveUser { user with
          emailVerificationToken := some (sha256Hex rawToken)
          emailVerificationExpires := some (now + 24 * 60 * 60) } db,
        .ok ())

/-- `UserService.forgotPassword(email)` (src/services/UserService.ts): silent
no-op when the user is absent; otherwise overwrites the reset token pair
(1h TTL). `rawToken` models `crypto.randomBytes(32)`. -/
def forgotPassword (db : Db) (now : Nat) (email rawToken : String) :
    Db × Except ApiError Unit :=
  match db.find? (emailMatch email) with
  | none => (db, .ok ())
  | some user =>
    (saveUser { user with
        passwordResetToken := some (sha256Hex rawToken)
        passwordResetExpires := some (now + 60 * 60) } db,
      .ok ())

/-- The mutation `resetPassword` applies to the matched user: replace the
password digest, clear the reset token pair. -/
def applyPasswordReset (newHash : String) (u : UserRec) : UserRec :=
  { u with
      password := newHash
      passwordResetToken := none
      passwordResetExpires := none }

/-- `UserService.resetPassword(token, newPassword)` (src/services/UserService.ts):
looks up by reset-token hash and unexpired expiry; on success replaces the
password digest and clears the reset token pair. -/
def resetPassword (db : Db) (now : Nat) (token newPassword : String) :
    Db × Except ApiError Unit :=
  match db.find? (passwordResetMatch (sha256Hex token) now) with
  | none => (db, .error ⟨"Invalid or expired token", 400⟩)
  | some user =>
    (saveUser (applyPasswordReset (bcryptHash newPassword) user) db, .ok ())

/-- The shape of a profile-update request body for `UserService.updateProfile`:
the `has*` flags model JavaScript `"field" in input` presence checks; `username`
and `password` are `some` exactly when present and truthy. -/
structure ProfileInput where
  hasEmail : Bool
  hasRole : Bool
  hasIsActive : Bool
  username : Option String
  password : Option String
  deriving DecidableEq, Repr

/-- The `User.findOne({ username, _id: { $ne: id } })` duplicate check inside
`updateProfile`: true when another user already holds the requested username. -/
def usernameConflict (db : Db) (id : Nat) (input : ProfileInput) : Bool :=
  match input.username with
  | some uname => (db.find? (fun v => v.username == uname && v.id != id)).isSome
  | none => false

/-- `UserService.updateProfile(id, input)` (src/services/UserService.ts):
rejects email changes (400) and role/isActive changes (403); otherwise updates
username (if free) and/or password. -/
def updateProfile (db : Db) (id : Nat) (input : ProfileInput) :
    Db × Except ApiError UserRec :=
  match findById id db with
  | none => (db, .error ⟨"User not found", 404⟩)
  | some user =>
    if input.hasEmail then (db, .error ⟨"Email cannot be changed", 400⟩)
    else if input.hasRole || input.hasIsActive then
      (db, .error ⟨"Forbidden", 403⟩)
    else if usernameConflict db id input then
      (db, .error ⟨"Username already taken", 409⟩)
    else
      let u1 := match input.username with
        | some uname => { user with username := uname }
        | none => user
      let u2 := match input.password with
        | some pw => { u1 with password := bcryptHash pw }
        | none => u1
      (saveUser u2 db, .ok u2)

/-- The state of the `Authorization` request header as seen by `authProtect`:
absent, present but not a `Bearer ` string, or a bearer token. -/
inductive AuthHeaderV where
  | missing
  | malformed (raw : String)
  | bearer (tok : Jwt)
  deriving DecidableEq, Repr

/-- The request context written by `authProtect` on success
(`req.userId`, `req.userRole`). -/
structure AuthOk where
  userId : Nat
  userRole : String
  deriving DecidableEq, Repr

/-- `authProtect` (src/middleware/authProtect.ts). The user lookup runs inside
the try block, so the 404 "User no longer exists" and 403 "Account is disabled"
errors thrown there are caught and re-thrown as the catch-all 403. -/
def authProtect (db : Db) (now : Nat) (h : AuthHeaderV) :
    Except ApiError AuthOk :=
  match h with
  | .missing => .error ⟨"Unauthorized: No token provided", 401⟩
  | .malformed _ => .error ⟨"Unauthorized: No token provided", 401⟩
  | .bearer tok =>
    match jwtVerify accessTokenSecret now tok with
    | none => .error ⟨"Forbidden: Invalid or expired token", 403⟩
    | some uid =>
      match findById uid db with
      | none => .error ⟨"Forbidden: Invalid or expired token", 403⟩
      | some user =>
        if user.isActive = false then
          .error ⟨"Forbidden: Invalid or expired token", 403⟩
        else .ok ⟨uid, user.role⟩

/-- `true` exactly on the error branch of a service result. -/
def isErr {α : Type} : Except ApiError α → Bool
  | .error _ => true
  | .ok _ => false

/-! ### Concrete fixtures used by witnesses and counterexamples -/

/-- A refresh token issued to user 1 at clock 0. -/
def tokU1 : Jwt := signRefreshToken 1 0

/-- A second, distinct refresh token for user 1, issued at clock 1. -/
def tokB : Jwt := signRefreshToken 1 1

/-- A verified, active user whose stored refresh token is `tokU1`. -/
def user1 : UserRec :=
  { id := 1
    username := "alice"
    email := "alice@x.com"
    password := bcryptHash "pw1"
    role := "user"
    isVerified := true
    isActive := true
    refreshToken := some tokU1
    emailVerificationToken := none
    emailVerificationExpires := none
    passwordResetToken := none
    passwordResetExpires := none }

/-- A one-user store holding `user1`. -/
def db1 : Db := [user1]

/-! ### Claims -/

/-- C1: `refresh` fails 401 Unauthorized when the presented token is absent;
403 Forbidden when signature/expiry verification fails; 401 Unauthorized when
the decoded user is missing or inactive; 403 Forbidden when the presented token
differs from the stored `refreshToken` (reuse detection); and on match returns a
newly issued access token only, with no change to the store (no rotation). -/
theorem refresh_spec (db : Db) (now : Nat) (ctok : Option Jwt) :
    (ctok = none → refresh db now ctok = (db, .error ⟨"Unauthorized", 401⟩)) ∧
    (∀ tok, ctok = some tok → jwtVerify refreshTokenSecret now tok = none →
      refresh db now ctok =
        (db, .error ⟨"Forbidden: Expired or Invalid Refresh Token", 403⟩)) ∧
    (∀ tok uid, ctok = some tok → jwtVerify refreshTokenSecret now tok = some uid →
      findById uid db = none →
      refresh db now ctok = (db, .error ⟨"Unauthorized", 401⟩)) ∧
    (∀ tok uid u, ctok = some tok → jwtVerify refreshTokenSecret now tok = some uid →
      findById uid db = some u → u.isActive = false →
      refresh db now ctok = (db, .error ⟨"Unauthorized", 401⟩)) ∧
    (∀ tok uid u, ctok = some tok → jwtVerify refreshTokenSecret now tok = some uid →
      findById uid db = some u → u.isActive = true → u.refreshToken ≠ some tok →
      refresh db now ctok = (db, .error ⟨"Forbidden: Invalid Token", 403⟩)) ∧
    (∀ tok uid u, ctok = some tok → jwtVerify refreshTokenSecret now tok = some uid →
      findById uid db = some u → u.isActive = true → u.refreshToken = some tok →
      refresh db now ctok = (db, .ok (signAccessToken u.id now))) := by
  refine ⟨?_, ?_, ?_, ?_, ?_, ?_⟩
  · rintro rfl; rfl
  · rintro tok rfl hv; simp [refresh, hv]
  · rintro tok uid rfl hv hf; simp [refresh, hv, hf]
  · rintro tok uid u rfl hv hf ha; simp [refresh, hv, hf, ha]
  · rintro tok uid u rfl hv hf ha hne; simp [refresh, hv, hf, ha, hne]
  · rintro tok uid u rfl hv hf ha heq; simp [refresh, hv, hf, ha, heq]

/-- Witness for C1: the success branch of `refresh_spec` at a concrete store. -/
theorem refresh_spec_witness :
    refresh db1 5 (some tokU1) = (db1, .ok (signAccessToken 1 5)) := by
  exact (refresh_spec db1 5 (some tokU1)).2.2.2.2.2 tokU1 1 user1 rfl (by decide)
    (by decide) (by decide) (by decide)

/-- C2 counterexample: with `user1` storing `tokU1` and the distinct token
`tokB` presented, reuse is detected (403) yet the stored `refreshToken` is
still `tokU1` — it is not cleared, contrary to the claim. -/
theorem refresh_reuse_keeps_token_cex :
    (refresh db1 5 (some tokB)).2 = .error ⟨"Forbidden: Invalid Token", 403⟩ ∧
    Option.map UserRec.refreshToken (findById 1 (refresh db1 5 (some tokB)).1) =
      some (some tokU1) ∧
    Option.map UserRec.refreshToken (findById 1 (refresh db1 5 (some tokB)).1) ≠
      some none :=
  ⟨rfl, rfl, by decide⟩

/-- C2 (amended): `refresh` never mutates the store: not on success, and not on
reuse detection either — a detected reuse is only rejected with 403, the stored
`refreshToken` is left in place. -/
theorem refresh_no_mutation (db : Db) (now : Nat) (ctok : Option Jwt) :
    (refresh db now ctok).1 = db := by
  cases ctok with
  | none => rfl
  | some tok =>
    cases hv : jwtVerify refreshTokenSecret now tok with
    | none => simp [refresh, hv]
    | some uid =>
      cases hf : findById uid db with
      | none => simp [refresh, hv, hf]
      | some u =>
        by_cases ha : u.isActive = false
        · simp [refresh, hv, hf, ha]
        · by_cases hne : u.refreshToken = some tok
          · simp [refresh, hv, hf, ha, hne]
          · simp [refresh, hv, hf, ha, hne]

/-- C3: `login` fails with the single 401 "Invalid credentials" error both when
no user matches the identifier and when the bcrypt comparison fails (the two
cases produce the identical error value); otherwise it fails 403 NotVerified
when `isVerified` is false, and 403 Disabled when `isActive` is false, in that
order of precedence. -/
theorem login_error_taxonomy (db : Db) (now : Nat) (identifier password : String) :
    (db.find? (loginIdentMatch identifier) = none →
      login db now identifier password = (db, .error ⟨"Invalid credentials", 401⟩)) ∧
    (∀ u, db.find? (loginIdentMatch identifier) = some u →
      bcryptCompare password u.password = false →
      login db now identifier password = (db, .error ⟨"Invalid credentials", 401⟩)) ∧
    (∀ u, db.find? (loginIdentMatch identifier) = some u →
      bcryptCompare password u.password = true → u.isVerified = false →
      login db now identifier password = (db, .error ⟨"Please verify your email", 403⟩)) ∧
    (∀ u, db.find? (loginIdentMatch identifier) = some u →
      bcryptCompare password u.password = true → u.isVerified = true →
      u.isActive = false →
      login db now identifier password = (db, .error ⟨"Account is disabled", 403⟩)) := by
  refine ⟨?_, ?_, ?_, ?_⟩
  · intro hf; simp [login, hf]
  · intro u hf hpw; simp [login, hf, hpw]
  · intro u hf hpw hver; simp [login, hf, hpw, hver]
  · intro u hf hpw hver ha; simp [login, hf, hpw, hver, ha]

/-- Witness for C3: a nonexistent identifier and a wrong password for an
existing user yield the identical error value. -/
theorem login_error_taxonomy_witness :
    login db1 5 "ghost" "pw1" = (db1, .error ⟨"Invalid credentials", 401⟩) ∧
    login db1 5 "alice" "wrong" = (db1, .error ⟨"Invalid credentials", 401⟩) := by
  constructor
  · exact (login_error_taxonomy db1 5 "ghost" "pw1").1 (by decide)
  · exact (login_error_taxonomy db1 5 "alice" "wrong").2.1 user1 (by decide) (by decide)

/-- C4: on successful login the operation issues an access and a refresh token,
persists the refresh token on the user record overwriting any previous value
(every stored record with that user's id now holds exactly the new token), and
returns only the (id, username, role) projection plus the two tokens. -/
theorem login_success_spec (db : Db) (now : Nat) (identifier password : String)
    (u : UserRec) (hfind : db.find? (loginIdentMatch identifier) = some u)
    (hpw : bcryptCompare password u.password = true)
    (hver : u.isVerified = true) (hact : u.isActive = true) :
    login db now identifier password =
      (saveUser { u with refreshToken := some (signRefreshToken u.id now) } db,
        .ok ⟨⟨u.id, u.username, u.role⟩, signAccessToken u.id now,
          signRefreshToken u.id now⟩) ∧
    ∀ v, v ∈ (login db now identifier password).1 → v.id = u.id →
      v.refreshToken = some (signRefreshToken u.id now) := by
  have hmain : login db now identifier password =
      (saveUser { u with refreshToken := some (signRefreshToken u.id now) } db,
        .ok ⟨⟨u.id, u.username, u.role⟩, signAccessToken u.id now,
          signRefreshToken u.id now⟩) := by
    simp [login, hfind, hpw, hver, hact]
  refine ⟨hmain, ?_⟩
  intro v hv hid
  rw [hmain] at hv
  simp only [saveUser, List.mem_map] at hv
  obtain ⟨w, hw, hmap⟩ := hv
  by_cases hwid : w.id = u.id
  · simp only [hwid] at hmap
    simp at hmap
    subst hmap
    rfl
  · simp [hwid] at hmap
    subst hmap
    exact absurd hid hwid

/-- Witness for C4: the concrete successful login of `user1`. -/
theorem login_success_spec_witness :
    login db1 5 "alice" "pw1" =
      (saveUser { user1 with refreshToken := some (signRefreshToken 1 5) } db1,
        .ok ⟨⟨1, "alice", "user"⟩, signAccessToken 1 5, signRefreshToken 1 5⟩) :=
  (login_success_spec db1 5 "alice" "pw1" user1 (by decide) (by decide)
    (by decide) (by decide)).1

/-- An unverified, active user holding the digest of the raw verification token
"vtok", unexpired until clock 100. -/
def user2 : UserRec :=
  { user1 with
      id := 2
      username := "bob"
      email := "bob@x.com"
      isVerified := false
      refreshToken := none
      emailVerificationToken := some (sha256Hex "vtok")
      emailVerificationExpires := some 100 }

/-- A one-user store holding `user2`. -/
def db2 : Db := [user2]

/-- C5: a verification token is single-use. When no user stores a matching
unexpired hash, `verifyEmail` fails 400 InvalidOrExpired. When a user matches
(and, as the random 32-byte tokens guarantee, no other record stores the same
hash), `verifyEmail` sets `isVerified` and clears the token pair, and presenting
the same raw token again at any later clock fails 400 InvalidOrExpired. -/
theorem verifyEmail_single_use (db : Db) (now now' : Nat) (token : String) :
    (db.find? (emailVerifyMatch (sha256Hex token) now) = none →
      verifyEmail db now token = (db, .error ⟨"Invalid or expired token", 400⟩)) ∧
    (∀ u, db.find? (emailVerifyMatch (sha256Hex token) now) = some u →
      (∀ v, v ∈ db → v.emailVerificationToken = some (sha256Hex token) → v.id = u.id) →
      verifyEmail db now token =
        (saveUser (markVerified u) db, .ok "Email verified successfully") ∧
      verifyEmail (verifyEmail db now token).1 now' token =
        ((verifyEmail db now token).1, .error ⟨"Invalid or expired token", 400⟩)) := by
  constructor
  · intro hf; simp [verifyEmail, hf]
  · intro u hfind huniq
    have hmain : verifyEmail db now token =
        (saveUser (markVerified u) db, .ok "Email verified successfully") := by
      simp [verifyEmail, hfind]
    have hnone : (saveUser (markVerified u) db).find?
        (emailVerifyMatch (sha256Hex token) now') = none := by
      rw [List.find?_eq_none]
      intro w hw
      simp only [saveUser, List.mem_map] at hw
      obtain ⟨v, hv, hmap⟩ := hw
      by_cases hvid : v.id = u.id
      · simp only [hvid, markVerified] at hmap
        simp at hmap
        subst hmap
        simp [emailVerifyMatch]
      · simp [markVerified, hvid] at hmap
        subst hmap
        intro hpred
        simp only [emailVerifyMatch, Bool.and_eq_true, decide_eq_true_eq] at hpred
        exact absurd (huniq v hv hpred.1) hvid
    refine ⟨hmain, ?_⟩
    rw [hmain]
    simp [verifyEmail, hnone]

/-- Witness for C5: verifying `user2` with the raw token "vtok" succeeds once
and fails on the second presentation. -/
theorem verifyEmail_single_use_witness :
    verifyEmail db2 5 "vtok" =
      (saveUser (markVerified user2) db2, .ok "Email verified successfully") ∧
    verifyEmail (verifyEmail db2 5 "vtok").1 7 "vtok" =
      ((verifyEmail db2 5 "vtok").1, .error ⟨"Invalid or expired token", 400⟩) :=
  (verifyEmail_single_use db2 5 7 "vtok").2 user2 (by decide) (by decide)

/-- C6: `logout` is a silent no-op when the presented token is absent or no
user's stored `refreshToken` equals it; otherwise it clears that user's stored
`refreshToken`, and (when that user was the only holder of the token, as login
guarantees) a subsequent `refresh` call with the just-invalidated token fails. -/
theorem logout_spec (db : Db) (now' : Nat) (ctok : Option Jwt) :
    (ctok = none → logout db ctok = (db, .ok ())) ∧
    (∀ tok, ctok = some tok → db.find? (refreshTokenMatch tok) = none →
      logout db ctok = (db, .ok ())) ∧
    (∀ tok u, ctok = some tok → db.find? (refreshTokenMatch tok) = some u →
      (∀ v, v ∈ db → v.refreshToken = some tok → v.id = u.id) →
      logout db ctok = (saveUser { u with refreshToken := none } db, .ok ()) ∧
      isErr (refresh (logout db ctok).1 now' (some tok)).2 = true) := by
  refine ⟨?_, ?_, ?_⟩
  · rintro rfl; rfl
  · rintro tok rfl hf; simp [logout, hf]
  · rintro tok u rfl hfind huniq
    have hmain : logout db (some tok) =
        (saveUser { u with refreshToken := none } db, .ok ()) := by
      simp [logout, hfind]
    refine ⟨hmain, ?_⟩
    rw [hmain]
    cases hv : jwtVerify refreshTokenSecret now' tok with
    | none => simp [refresh, hv, isErr]
    | some uid =>
      cases hfid : findById uid (saveUser { u with refreshToken := none } db) with
      | none => simp [refresh, hv, hfid, isErr]
      | some w =>
        have hwmem : w ∈ saveUser { u with refreshToken := none } db :=
          List.mem_of_find?_eq_some hfid
        have hwne : w.refreshToken ≠ some tok := by
          simp only [saveUser, List.mem_map] at hwmem
          obtain ⟨v, hv2, hmap⟩ := hwmem
          by_cases hvid : v.id = u.id
          · simp [hvid] at hmap
            rw [← hmap]
            simp
          · simp [hvid] at hmap
            rw [← hmap]
            intro hcontra
            exact hvid (huniq v hv2 hcontra)
        by_cases hact : w.isActive = false
        · simp [refresh, hv, hfid, hact, isErr]
        · simp [refresh, hv, hfid, hact, hwne, isErr]

/-- Witness for C6: logging `user1` out clears the stored token and the
invalidated token no longer refreshes. -/
theorem logout_spec_witness :
    logout db1 (some tokU1) =
      (saveUser { user1 with refreshToken := none } db1, .ok ()) ∧
    isErr (refresh (logout db1 (some tokU1)).1 9 (some tokU1)).2 = true :=
  (logout_spec db1 9 (some tokU1)).2.2 tokU1 user1 rfl (by decide) (by decide)

/-- C7: the Authorization Gate fails 401 when the bearer header is missing or
malformed; 403 when the token's signature or expiry is invalid; 403 when the
referenced user no longer exists (the thrown 404 is swallowed by the catch and
surfaces as the 403); 403 when the account is disabled; and on success attaches
the decoded userId and the user's role to the request context. -/
theorem authProtect_spec (db : Db) (now : Nat) (h : AuthHeaderV) :
    (h = .missing →
      authProtect db now h = .error ⟨"Unauthorized: No token provided", 401⟩) ∧
    (∀ s, h = .malformed s →
      authProtect db now h = .error ⟨"Unauthorized: No token provided", 401⟩) ∧
    (∀ tok, h = .bearer tok → jwtVerify accessTokenSecret now tok = none →
      authProtect db now h = .error ⟨"Forbidden: Invalid or expired token", 403⟩) ∧
    (∀ tok uid, h = .bearer tok → jwtVerify accessTokenSecret now tok = some uid →
      findById uid db = none →
      authProtect db now h = .error ⟨"Forbidden: Invalid or expired token", 403⟩) ∧
    (∀ tok uid u, h = .bearer tok → jwtVerify accessTokenSecret now tok = some uid →
      findById uid db = some u → u.isActive = false →
      authProtect db now h = .error ⟨"Forbidden: Invalid or expired token", 403⟩) ∧
    (∀ tok uid u, h = .bearer tok → jwtVerify accessTokenSecret now tok = some uid →
      findById uid db = some u → u.isActive = true →
      authProtect db now h = .ok ⟨uid, u.role⟩) := by
  refine ⟨?_, ?_, ?_, ?_, ?_, ?_⟩
  · rintro rfl; rfl
  · rintro s rfl; rfl
  · rintro tok rfl hv; simp [authProtect, hv]
  · rintro tok uid rfl hv hf; simp [authProtect, hv, hf]
  · rintro tok uid u rfl hv hf ha; simp [authProtect, hv, hf, ha]
  · rintro tok uid u rfl hv hf ha; simp [authProtect, hv, hf, ha]

/-- Witness for C7: a fresh access token for `user1` passes the gate and the
context receives id 1 and role "user". -/
theorem authProtect_spec_witness :
    authProtect db1 5 (.bearer (signAccessToken 1 0)) = .ok ⟨1, "user"⟩ :=
  (authProtect_spec db1 5 (.bearer (signAccessToken 1 0))).2.2.2.2.2
    (signAccessToken 1 0) 1 user1 rfl (by decide) (by decide) (by decide)

/-- C8: on success `resetPassword` replaces the password digest and clears the
reset token pair, and leaves every other field of the matched record — in
particular the stored `refreshToken` — unchanged; records of other users are
kept as they were. -/
theorem resetPassword_frame (db : Db) (now : Nat) (token newPassword : String)
    (u : UserRec)
    (hfind : db.find? (passwordResetMatch (sha256Hex token) now) = some u) :
    resetPassword db now token newPassword =
      (saveUser (applyPasswordReset (bcryptHash newPassword) u) db, .ok ()) ∧
    (applyPasswordReset (bcryptHash newPassword) u).password = bcryptHash newPassword ∧
    (applyPasswordReset (bcryptHash newPassword) u).passwordResetToken = none ∧
    (applyPasswordReset (bcryptHash newPassword) u).passwordResetExpires = none ∧
    (applyPasswordReset (bcryptHash newPassword) u).id = u.id ∧
    (applyPasswordReset (bcryptHash newPassword) u).username = u.username ∧
    (applyPasswordReset (bcryptHash newPassword) u).email = u.email ∧
    (applyPasswordReset (bcryptHash newPassword) u).role = u.role ∧
    (applyPasswordReset (bcryptHash newPassword) u).isVerified = u.isVerified ∧
    (applyPasswordReset (bcryptHash newPassword) u).isActive = u.isActive ∧
    (applyPasswordReset (bcryptHash newPassword) u).refreshToken = u.refreshToken ∧
    (applyPasswordReset (bcryptHash newPassword) u).emailVerificationToken =
      u.emailVerificationToken ∧
    (applyPasswordReset (bcryptHash newPassword) u).emailVerificationExpires =
      u.emailVerificationExpires ∧
    (∀ v, v ∈ db → v.id ≠ u.id →
      v ∈ (resetPassword db now token newPassword).1) := by
  have hmain : resetPassword db now token newPassword =
      (saveUser (applyPasswordReset (bcryptHash newPassword) u) db, .ok ()) := by
    simp [resetPassword, hfind]
  refine ⟨hmain, rfl, rfl, rfl, rfl, rfl, rfl, rfl, rfl, rfl, rfl, rfl, rfl, ?_⟩
  intro v hv hne
  rw [hmain]
  simp only [saveUser, List.mem_map]
  exact ⟨v, hv, by simp [applyPasswordReset, hne]⟩

/-- A verified, active user holding the digest of the raw reset token "rtok",
unexpired until clock 50, with a live session (`tokU1`). -/
def user3 : UserRec :=
  { user1 with
      id := 3
      username := "carol"
      email := "carol@x.com"
      passwordResetToken := some (sha256Hex "rtok")
      passwordResetExpires := some 50 }

/-- A one-user store holding `user3`. -/
def db3 : Db := [user3]

/-- Witness for C8: resetting `user3`'s password keeps the stored refresh
token, so the existing session survives. -/
theorem resetPassword_frame_witness :
    resetPassword db3 5 "rtok" "npw" =
      (saveUser (applyPasswordReset (bcryptHash "npw") user3) db3, .ok ()) ∧
    (applyPasswordReset (bcryptHash "npw") user3).refreshToken = some tokU1 :=
  ⟨(resetPassword_frame db3 5 "rtok" "npw" user3 (by decide)).1, rfl⟩

/-- C9: `resendVerificationEmail` and `forgotPassword` always return success
(the caller-visible result is `.ok ()` on every store), and in the non-matching
runs — absent account, or (for resend) an already verified account — the store
is left unchanged, so the caller cannot distinguish the existing-account run
from the absent-account run. -/
theorem antiEnumeration_spec (db : Db) (now : Nat) (email rawToken : String) :
    (resendVerificationEmail db now email rawToken).2 = .ok () ∧
    (forgotPassword db now email rawToken).2 = .ok () ∧
    (db.find? (emailMatch email) = none →
      resendVerificationEmail db now email rawToken = (db, .ok ()) ∧
      forgotPassword db now email rawToken = (db, .ok ())) ∧
    (∀ u, db.find? (emailMatch email) = some u → u.isVerified = true →
      resendVerificationEmail db now email rawToken = (db, .ok ())) := by
  refine ⟨?_, ?_, ?_, ?_⟩
  · cases hf : db.find? (emailMatch email) with
    | none => simp [resendVerificationEmail, hf]
    | some u =>
      by_cases hv : u.isVerified
      · simp [resendVerificationEmail, hf, hv]
      · simp [resendVerificationEmail, hf, hv]
  · cases hf : db.find? (emailMatch email) with
    | none => simp [forgotPassword, hf]
    | some u => simp [forgotPassword, hf]
  · intro hf
    exact ⟨by simp [resendVerificationEmail, hf], by simp [forgotPassword, hf]⟩
  · intro u hf hv
    simp [resendVerificationEmail, hf, hv]

/-- Witness for C9: for an email with no account, both operations return
success and change nothing. -/
theorem antiEnumeration_spec_witness :
    resendVerificationEmail db1 5 "ghost@x.com" "tk" = (db1, .ok ()) ∧
    forgotPassword db1 5 "ghost@x.com" "tk" = (db1, .ok ()) :=
  (antiEnumeration_spec db1 5 "ghost@x.com" "tk").2.2.1 (by decide)

/-- C10: `updateProfile` rejects any input containing the email field with 400
and any input containing role or isActive with 403, leaving the store
unchanged; a requested username already taken by another user is rejected with
409; otherwise only username and password are modified, every other field of
the record being preserved. -/
theorem updateProfile_spec (db : Db) (id : Nat) (input : ProfileInput)
    (u : UserRec) (hfind : findById id db = some u) :
    (input.hasEmail = true →
      updateProfile db id input = (db, .error ⟨"Email cannot be changed", 400⟩)) ∧
    (input.hasEmail = false → (input.hasRole = true ∨ input.hasIsActive = true) →
      updateProfile db id input = (db, .error ⟨"Forbidden", 403⟩)) ∧
    (input.hasEmail = false → input.hasRole = false → input.hasIsActive = false →
      usernameConflict db id input = true →
      updateProfile db id input = (db, .error ⟨"Username already taken", 409⟩)) ∧
    (input.hasEmail = false → input.hasRole = false → input.hasIsActive = false →
      usernameConflict db id input = false →
      ∃ u', updateProfile db id input = (saveUser u' db, .ok u') ∧
        u'.id = u.id ∧ u'.email = u.email ∧ u'.role = u.role ∧
        u'.isActive = u.isActive ∧ u'.isVerified = u.isVerified ∧
        u'.refreshToken = u.refreshToken ∧
        u'.emailVerificationToken = u.emailVerificationToken ∧
        u'.emailVerificationExpires = u.emailVerificationExpires ∧
        u'.passwordResetToken = u.passwordResetToken ∧
        u'.passwordResetExpires = u.passwordResetExpires ∧
        u'.username = input.username.getD u.username ∧
        u'.password = (input.password.map bcryptHash).getD u.password) := by
  refine ⟨?_, ?_, ?_, ?_⟩
  · intro he; simp [updateProfile, hfind, he]
  · intro he hro
    rcases hro with hr | hi
    · simp [updateProfile, hfind, he, hr]
    · simp [updateProfile, hfind, he, hi]
  · intro he hr hi hc; simp [updateProfile, hfind, he, hr, hi, hc]
  · intro he hr hi hc
    refine ⟨{ u with
        username := input.username.getD u.username
        password := (input.password.map bcryptHash).getD u.password },
      ?_, rfl, rfl, rfl, rfl, rfl, rfl, rfl, rfl, rfl, rfl, rfl, rfl⟩
    cases hu : input.username <;> cases hp : input.password <;>
      simp [updateProfile, hfind, he, hr, hi, hc, hu, hp]

/-- Witness for C10: an input containing email is rejected 400 and an input
containing role is rejected 403 for `user1`, with no change to the store. -/
theorem updateProfile_spec_witness :
    updateProfile db1 1 ⟨true, false, false, none, none⟩ =
      (db1, .error ⟨"Email cannot be changed", 400⟩) ∧
    updateProfile db1 1 ⟨false, true, false, none, none⟩ =
      (db1, .error ⟨"Forbidden", 403⟩) := by
  constructor
  · exact (updateProfile_spec db1 1 ⟨true, false, false, none, none⟩ user1
      (by decide)).1 rfl
  · exact (updateProfile_spec db1 1 ⟨false, true, false, none, none⟩ user1
      (by decide)).2.1 rfl (Or.inl rfl)
